import Mathlib

/-!
Shallow embedding of the uplink-moira-bot repository (three TypeScript
source files: `moira.ts` and two bot entry points registering a
`handleCommand` handler on Matrix room messages).

Modeling conventions:
* TypeScript strings are `List Char`; `str` converts a Lean string
  literal to that representation.
* A JavaScript value that may be `null`/`undefined` is an `Option`.
* Code that can throw returns `Except JsError _`; `JsError.typeError`
  models the runtime `TypeError` raised by property access or method
  calls on `null`/`undefined`, and `JsError.noAPIResult` models the
  `NoAPIResult` error class of `moira.ts` (which carries the message
  `<method> didn't return anything!`; we record the method name).
* The SOAP round trip itself is external I/O: each adapter method takes
  the remote response as an explicit parameter.  The parameter models
  `result[0]` of the soap library's reply: the outer `Option` is `none`
  when `result[0] == null` (null or undefined), and the inner `Option`
  is `none` when the wrapped `<method>Return` field is absent.
-/

/-- Convert a Lean string literal to the `List Char` representation used
for TypeScript strings throughout this development. -/
def str (s : String) : List Char := s.toList

/-- Runtime failures observable in the program: the `NoAPIResult` error
class of `moira.ts` (tagged with the API method that produced it) and the
JavaScript `TypeError` raised by operating on `null`/`undefined`. -/
inductive JsError where
  | noAPIResult (method : List Char)
  | typeError
deriving DecidableEq

/-- `type MemberType = 'USER' | 'LIST' | 'STRING' | 'KERBEROS'` from `moira.ts`. -/
inductive MemberType where
  | USER
  | LIST
  | STRING
  | KERBEROS
deriving DecidableEq

/-- `interface ListMember` from `moira.ts`. -/
structure ListMember where
  list : List Char
  member : List Char
  type : MemberType
deriving DecidableEq

/-- `interface ListAttributes` from `moira.ts`. -/
structure ListAttributes where
  aceName : List Char
  aceType : MemberType
  activeList : Bool
  description : List Char
  gid : List Char
  group : Bool
  hiddenList : Bool
  listName : List Char
  mailList : Bool
  mailman : Bool
  mailmanServer : List Char
  memaceName : List Char
  memaceType : MemberType
  modby : List Char
  modtime : List Char
  modwith : List Char
  nfsgroup : Bool
  pacsList : Bool
  publicList : Bool
deriving DecidableEq

/-- `interface UserAttributes` from `moira.ts`. -/
structure UserAttributes where
  comment : List Char
  created : List Char
  creator : List Char
  first : List Char
  last : List Char
  middle : List Char
  mitid : List Char
  modby : List Char
  modtime : List Char
  modwith : List Char
  secure : List Char
  shell : List Char
  signature : List Char
  state : List Char
  uclass : List Char
  uid : List Char
  userName : List Char
  winconsoleshell : List Char
  winhomedir : List Char
  winprofiledir : List Char
deriving DecidableEq

/-- `apiCall` from `moira.ts`:
`if (result[0] == null) throw new NoAPIResult(...); return result[0][method + 'Return'];`.
`result0` models `result[0]` (`none` = null/undefined, matching the loose
`== null` check); the inner `Option` models the wrapped `<method>Return`
field, which may be absent (`undefined`). -/
def apiCall {α : Type} (method : List Char) (result0 : Option (Option α)) :
    Except JsError (Option α) :=
  match result0 with
  | none => .error (.noAPIResult method)
  | some ret => .ok ret

/-- `getMembersOfList` from `moira.ts`: a direct `apiCall` to
`getListMembership` (the `listName`, `recursiveSearch` and
`maxReturnCount: 0` arguments only shape the remote request, whose
response is the explicit `resp` parameter). -/
def getMembersOfList (listName : List Char) (recursiveSearch : Bool)
    (resp : Option (Option (List ListMember))) :
    Except JsError (Option (List ListMember)) :=
  let _ := listName
  let _ := recursiveSearch
  apiCall (str "getListMembership") resp

/-- JavaScript `String.prototype.split` with a single-character separator:
`"a/b/c".split('/') = ["a","b","c"]`; the result list is never empty. -/
def splitOnChar (sep : Char) : List Char → List (List Char)
  | [] => [[]]
  | c :: rest =>
    match splitOnChar sep rest with
    | [] => [[]]
    | h :: t => if c = sep then [] :: h :: t else (c :: h) :: t

/-- The `for (const user of filterByType('KERBEROS'))` loop body of
`getMITMembersOfList` in `moira.ts`, iterated over the list.  The
destructuring `const [kerb, extension] = user.split('/')` reads the
first two elements of the split (`parts.headD []` and
`(parts.drop 1).head?`); the loose `==` comparison of a possibly
undefined `extension` with a string is `= some _` here. -/
def athenaLoop : List (List Char) → List (List Char)
  | [] => []
  | user :: rest =>
    if user.contains '/' then
      let parts := splitOnChar '/' user
      if (parts.drop 1).head? = some (str "root@ATHENA.MIT.EDU") then
        parts.headD [] :: athenaLoop rest
      else
        athenaLoop rest
    else
      let parts := splitOnChar '@' user
      if (parts.drop 1).head? = some (str "ATHENA.MIT.EDU")
          ∨ (parts.drop 1).head? = some (str "MIT.EDU") then
        parts.headD [] :: athenaLoop rest
      else
        athenaLoop rest

/-- `getMITMembersOfList` from `moira.ts`: recursive membership query,
`filterByType` for USER and KERBEROS members, the Athena-kerb loop, and
`kerbs.concat(athenaUsers)`.  A present-but-undefined payload makes
`allMembers.filter` throw a `TypeError`. -/
def getMITMembersOfList (listName : List Char)
    (resp : Option (Option (List ListMember))) :
    Except JsError (List (List Char)) :=
  match getMembersOfList listName true resp with
  | .error e => .error e
  | .ok none => .error .typeError
  | .ok (some allMembers) =>
    let filterByType := fun (t : MemberType) =>
      (allMembers.filter (fun m => m.type == t)).map (fun m => m.member)
    let kerbs := filterByType .USER
    let athenaUsers := athenaLoop (filterByType .KERBEROS)
    .ok (kerbs ++ athenaUsers)

/-- `getListAttributes` from `moira.ts`: `(await this.apiCall(...))[0]`.
Indexing `[0]` into an `undefined` payload throws a `TypeError`; indexing
into an empty array yields `undefined` (`List.head?`). -/
def getListAttributes (listName : List Char)
    (resp : Option (Option (List ListAttributes))) :
    Except JsError (Option ListAttributes) :=
  let _ := listName
  match apiCall (str "getListAttributes") resp with
  | .error e => .error e
  | .ok none => .error .typeError
  | .ok (some arr) => .ok arr.head?

/-- `getUserAttributes` from `moira.ts`: `(await this.apiCall(...))[0]`,
same indexing behavior as `getListAttributes`. -/
def getUserAttributes (kerb : List Char)
    (resp : Option (Option (List UserAttributes))) :
    Except JsError (Option UserAttributes) :=
  let _ := kerb
  match apiCall (str "getUserAttributes") resp with
  | .error e => .error e
  | .ok none => .error .typeError
  | .ok (some arr) => .ok arr.head?

/-- JavaScript `String.prototype.replace` with a plain string pattern:
only the leftmost occurrence of `pat` is replaced by `rep`. -/
def replaceFirst (pat rep : List Char) : List Char → List Char
  | [] => if pat.isPrefixOf ([] : List Char) then rep else []
  | c :: rest =>
    if pat.isPrefixOf (c :: rest) then rep ++ (c :: rest).drop pat.length
    else c :: replaceFirst pat rep rest

/-- `getUserName` from `moira.ts`:
``` `${first} ${middle} ${last}`.replace('  ', ' ') ```
on the attributes record; accessing `.first` on an `undefined` attributes
value throws a `TypeError`. -/
def getUserName (kerb : List Char)
    (resp : Option (Option (List UserAttributes))) :
    Except JsError (List Char) :=
  match getUserAttributes kerb resp with
  | .error e => .error e
  | .ok none => .error .typeError
  | .ok (some attributes) =>
    .ok (replaceFirst (str "  ") (str " ")
      (attributes.first ++ str " " ++ attributes.middle ++ str " " ++ attributes.last))

/-- `getUserLists` from `moira.ts`: a direct `apiCall` to `getUserLists`. -/
def getUserLists (kerb : List Char)
    (resp : Option (Option (List (List Char)))) :
    Except JsError (Option (List (List Char))) :=
  let _ := kerb
  apiCall (str "getUserLists") resp

/-- `getUserClasses` from `moira.ts`:
`lists.filter((name) => name.startsWith('canvas'))`; calling `.filter` on
an `undefined` payload throws a `TypeError`. -/
def getUserClasses (kerb : List Char)
    (resp : Option (Option (List (List Char)))) :
    Except JsError (List (List Char)) :=
  match getUserLists kerb resp with
  | .error e => .error e
  | .ok none => .error .typeError
  | .ok (some lists) =>
    .ok (lists.filter (fun name => (str "canvas").isPrefixOf name))

/-- A character refused by `.` in a JavaScript regular expression
(line terminators: LF, CR, LINE SEPARATOR, PARAGRAPH SEPARATOR). -/
def isLineTerm (c : Char) : Bool :=
  c = '\n' || c = '\r' || c.val = 0x2028 || c.val = 0x2029

/-- Whether a character list starts with `:` followed by at least one
character; returns that following character.  This is the `:.+` tail of
the pattern once the capture group has consumed everything before it. -/
def colonStart : List Char → Option Char
  | [] => none
  | [_] => none
  | a :: d :: _ => if a = ':' then some d else none

/-- Greedy match of `(.+):.+` against a character list (the part of the
pattern `/@(.+):.+/` after the literal `@`): returns the capture group of
the longest `(.+)` that is followed by `:` and at least one more
`.`-matchable character, or `none` when no such decomposition exists. -/
def greedyGroup : List Char → Option (List Char)
  | [] => none
  | c :: rest =>
    if isLineTerm c then none
    else
      match greedyGroup rest with
      | some g => some (c :: g)
      | none =>
        match colonStart rest with
        | some d => if isLineTerm d then none else some [c]
        | none => none

/-- `extractLocalpart` from the moira bot entry point:
`username.match(/@(.+):.+/)![1]`.  JavaScript `match` finds the leftmost
position where the unanchored pattern matches; `none` models the
`TypeError` thrown by `null![1]` when there is no match. -/
def extractLocalpart : List Char → Option (List Char)
  | [] => none
  | c :: rest =>
    if c = '@' then
      match greedyGroup rest with
      | some g => some g
      | none => extractLocalpart rest
    else extractLocalpart rest

/-- `extractLocalpart` as invoked on `event['sender']`, which may itself
be absent: calling `.match` on `undefined`, like indexing a failed
(`null`) match, throws a `TypeError`. -/
def extractLocalpartJS (username : Option (List Char)) :
    Except JsError (List Char) :=
  match username with
  | none => .error .typeError
  | some s =>
    match extractLocalpart s with
    | none => .error .typeError
    | some g => .ok g

/-- The `content` object of an inbound Matrix room message event; either
field may be absent. -/
structure EventContent where
  msgtype : Option (List Char)
  body : Option (List Char)
deriving DecidableEq

/-- An inbound Matrix room message event as read by the handlers:
`event['sender']` and `event['content']`, each possibly absent. -/
structure MatrixEvent where
  sender : Option (List Char)
  content : Option EventContent
deriving DecidableEq

/-- Observable effect of one `handleCommand` invocation that did not
throw: either it returned without replying, or it called
`client.replyNotice` with the given text. -/
inductive Outcome where
  | silent
  | replied (text : List Char)
deriving DecidableEq

/-- The ambient state the moira bot's `handleCommand` closes over: the
bot's own user id (`await client.getUserId()`) and the remote directory
service, modeled by the SOAP responses it would produce for the
`getUserLists` and `getUserAttributes` queries issued for a given kerb. -/
structure BotEnv where
  selfId : List Char
  userListsResp : List Char → Option (Option (List (List Char)))
  userAttrsResp : List Char → Option (Option (List UserAttributes))

/-- `handleCommand` from the moira bot entry point: the
`msgtype !== 'm.text'` and `sender === self` guards, then
`extractLocalpart(event['sender'])` (before any prefix test), then the
`!hello` / `!myclasses` / `!myname` prefix dispatch.  `body.startsWith`
on an absent body throws a `TypeError`. -/
def handleCommand (bot : BotEnv) (event : MatrixEvent) :
    Except JsError Outcome :=
  match event.content with
  | none => .ok .silent
  | some content =>
    if content.msgtype ≠ some (str "m.text") then .ok .silent
    else if event.sender = some bot.selfId then .ok .silent
    else
      match extractLocalpartJS event.sender with
      | .error e => .error e
      | .ok username =>
        match content.body with
        | none => .error .typeError
        | some body =>
          if (str "!hello").isPrefixOf body then
            .ok (.replied (str "Hello world!"))
          else if (str "!myclasses").isPrefixOf body then
            match getUserClasses username (bot.userListsResp username) with
            | .error e => .error e
            | .ok classes =>
              .ok (.replied (List.intercalate (str "\n")
                (classes.filter (fun name => (str "canvas-2023").isPrefixOf name))))
          else if (str "!myname").isPrefixOf body then
            match getUserName username (bot.userAttrsResp username) with
            | .error e => .error e
            | .ok name => .ok (.replied name)
          else .ok .silent

/-- `handleCommand` from the hello-world bot entry point: the same two
guards, then `if (!body?.startsWith("!hello")) return;` (an absent body
short-circuits to `undefined`, so the handler returns silently), then the
`Hello world!` reply.  This handler never throws. -/
def handleCommandHello (selfId : List Char) (event : MatrixEvent) :
    Except JsError Outcome :=
  match event.content with
  | none => .ok .silent
  | some content =>
    if content.msgtype ≠ some (str "m.text") then .ok .silent
    else if event.sender = some selfId then .ok .silent
    else
      match content.body with
      | none => .ok .silent
      | some body =>
        if (str "!hello").isPrefixOf body then
          .ok (.replied (str "Hello world!"))
        else .ok .silent

/-- Spec-level description of the USER part of `getMITMembersOfList`:
the identifiers of USER-typed members, in their original order. -/
def mitUserPart (members : List ListMember) : List (List Char) :=
  (members.filter (fun m => m.type == MemberType.USER)).map (fun m => m.member)

/-- One iteration of the KERBEROS acceptance rule of
`getMITMembersOfList`, as a partial function: the kerb pushed for an
accepted member, `none` for a rejected one.  The conditions are those of
`athenaLoop`. -/
def athenaAccept (user : List Char) : Option (List Char) :=
  if user.contains '/' then
    let parts := splitOnChar '/' user
    if (parts.drop 1).head? = some (str "root@ATHENA.MIT.EDU") then
      some (parts.headD [])
    else none
  else
    let parts := splitOnChar '@' user
    if (parts.drop 1).head? = some (str "ATHENA.MIT.EDU")
        ∨ (parts.drop 1).head? = some (str "MIT.EDU") then
      some (parts.headD [])
    else none

/-- Spec-level description of the KERBEROS part of
`getMITMembersOfList`: accepted kerbs of KERBEROS-typed members, in
their original order. -/
def mitKerberosPart (members : List ListMember) : List (List Char) :=
  athenaLoop ((members.filter (fun m => m.type == MemberType.KERBEROS)).map (fun m => m.member))

/-- Modelled from the spec claim wording, for comparison with the code:
a KERBEROS member string whose realm matches an accepted institutional
realm, in one of the forms `kerb/root@REALM` or `kerb@REALM` with the
accepted realm strings `ATHENA.MIT.EDU` and `MIT.EDU`. -/
def specKerberosAccepted (user : List Char) : Bool :=
  (str "/root@ATHENA.MIT.EDU").isSuffixOf user
    || (str "/root@MIT.EDU").isSuffixOf user
    || (str "@ATHENA.MIT.EDU").isSuffixOf user
    || (str "@MIT.EDU").isSuffixOf user

/-- Whether a string contains two consecutive spaces. -/
def hasDoubleSpace : List Char → Bool
  | [] => false
  | [_] => false
  | a :: b :: rest => (a = ' ' && b = ' ') || hasDoubleSpace (b :: rest)

/-- The member list of the worked example in the spec:
`[{type:USER,member:"abc"}, {type:KERBEROS,member:"xyz/root@ATHENA.MIT.EDU"}, {type:KERBEROS,member:"foo@CORP.EXAMPLE"}]`. -/
def exampleMembers : List ListMember :=
  [⟨str "example-list", str "abc", .USER⟩,
   ⟨str "example-list", str "xyz/root@ATHENA.MIT.EDU", .KERBEROS⟩,
   ⟨str "example-list", str "foo@CORP.EXAMPLE", .KERBEROS⟩]

/-- The user-list collection of the worked example in the spec:
`["canvas-2023-6.004","sipb-board","canvas-archive"]`. -/
def exampleLists : List (List Char) :=
  [str "canvas-2023-6.004", str "sipb-board", str "canvas-archive"]

/-- A bot environment whose directory service answers every
`getUserLists` query with the given collection and every
`getUserAttributes` query with a null payload. -/
def listsBot (lists : List (List Char)) : BotEnv :=
  ⟨str "@uplink:matrix.mit.edu", fun _ => some (some lists), fun _ => none⟩

/-- A bot environment whose directory service returns a null payload for
every query (the directory is never reached in the claims that use it). -/
def sampleBot : BotEnv :=
  ⟨str "@uplink:matrix.mit.edu", fun _ => none, fun _ => none⟩

/-- A well-formed `m.text` event from another user with body `!hello`. -/
def evHello : MatrixEvent :=
  ⟨some (str "@jdoe:matrix.mit.edu"), some ⟨some (str "m.text"), some (str "!hello")⟩⟩

/-- An `m.text` event from another user whose sender identifier
`jdoe:bad` lacks an `@` and whose body is `!hello`. -/
def evBadSenderHello : MatrixEvent :=
  ⟨some (str "jdoe:bad"), some ⟨some (str "m.text"), some (str "!hello")⟩⟩

/-- An `m.text` event from another user whose sender identifier
`jdoe:bad` lacks an `@` and whose body `hi` matches no command. -/
def evBadSenderNoCmd : MatrixEvent :=
  ⟨some (str "jdoe:bad"), some ⟨some (str "m.text"), some (str "hi")⟩⟩

/-- A well-formed `m.text` event from another user with body `!myclasses`. -/
def evMyclasses : MatrixEvent :=
  ⟨some (str "@abc:matrix.mit.edu"), some ⟨some (str "m.text"), some (str "!myclasses")⟩⟩

/-- User attributes with empty middle name and a double space inside the
first name. -/
def attrsOdd : UserAttributes :=
  ⟨[], [], [], str "a  b", str "c", [], [], [], [], [], [], [], [], [], [], [], [], [], [], []⟩

/-- Ordinary user attributes with empty middle name. -/
def attrsJohn : UserAttributes :=
  ⟨[], [], [], str "John", str "Doe", [], [], [], [], [], [], [], [], [], [], [], [], [], [], []⟩

/-- The push loop over KERBEROS members is the `filterMap` of its
per-element acceptance rule. -/
theorem athenaLoop_eq_filterMap (users : List (List Char)) :
    athenaLoop users = users.filterMap athenaAccept := by
  induction users with
  | nil => rfl
  | cons user rest ih =>
    simp only [athenaLoop, athenaAccept, List.filterMap_cons]
    split_ifs <;> simp [ih]

/-- `replace('  ', ' ')` on `f ++ "  " ++ l` collapses exactly the
junction double space when `f` itself contains none. -/
theorem replaceFirst_double_space (f l : List Char) :
    hasDoubleSpace f = false →
    replaceFirst [' ', ' '] [' '] (f ++ ' ' :: ' ' :: l) = f ++ ' ' :: l := by
  induction f with
  | nil => intro _; simp [replaceFirst, List.isPrefixOf]
  | cons c f ih =>
    intro hf
    cases f with
    | nil =>
      by_cases hc : c = ' '
      · subst hc
        simp [replaceFirst, List.isPrefixOf]
      · simp [replaceFirst, List.isPrefixOf, hc]
    | cons d f' =>
      have hf2 : hasDoubleSpace (d :: f') = false := by
        simp only [hasDoubleSpace, Bool.or_eq_false_iff] at hf
        exact hf.2
      have hnot : ¬(c = ' ' ∧ d = ' ') := by
        intro ⟨hc, hd⟩
        subst hc; subst hd
        simp [hasDoubleSpace] at hf
      rw [List.cons_append, replaceFirst,
        if_neg (by simp; intro hc hd; exact hnot ⟨hc.symm, hd.symm⟩), ih hf2]
      simp

/-- A string with no colon does not start with the `:.+` pattern tail. -/
theorem colonStart_of_no_colon (rest : List Char) :
    ':' ∉ rest → colonStart rest = none := by
  intro h
  match rest with
  | [] => rfl
  | [d] => rfl
  | a :: d :: t =>
    have ha : a ≠ ':' := fun hc => h (hc ▸ List.mem_cons_self a _)
    rw [colonStart, if_neg ha]

/-- `(.+):.+` cannot match within a string containing no colon. -/
theorem greedyGroup_of_no_colon (s : List Char) :
    ':' ∉ s → greedyGroup s = none := by
  induction s with
  | nil => intro _; rfl
  | cons c rest ih =>
    intro h
    have hrest : ':' ∉ rest := fun hm => h (List.mem_cons_of_mem _ hm)
    rw [greedyGroup]
    by_cases hl : isLineTerm c
    · rw [if_pos hl]
    · rw [if_neg hl, ih hrest, colonStart_of_no_colon rest hrest]

/-- The unanchored pattern finds no match in a string without `@`. -/
theorem extractLocalpart_of_no_at (s : List Char) :
    '@' ∉ s → extractLocalpart s = none := by
  induction s with
  | nil => intro _; rfl
  | cons c rest ih =>
    intro h
    have hc : c ≠ '@' := fun hc => h (hc ▸ List.mem_cons_self c rest)
    have hrest : '@' ∉ rest := fun hm => h (List.mem_cons_of_mem _ hm)
    rw [extractLocalpart, if_neg hc, ih hrest]

/-- The pattern finds no match in a string without a colon. -/
theorem extractLocalpart_of_no_colon (s : List Char) :
    ':' ∉ s → extractLocalpart s = none := by
  induction s with
  | nil => intro _; rfl
  | cons c rest ih =>
    intro h
    have hrest : ':' ∉ rest := fun hm => h (List.mem_cons_of_mem _ hm)
    rw [extractLocalpart]
    by_cases hc : c = '@'
    · rw [if_pos hc, greedyGroup_of_no_colon rest hrest, ih hrest]
    · rw [if_neg hc, ih hrest]

/-- Filtering for the `canvas-2023` handler condition after the `canvas`
library condition is the same as filtering for `canvas-2023` alone: the
longer required beginning subsumes the shorter one. -/
theorem filter_canvas_absorb (L : List (List Char)) :
    (L.filter (fun name => (str "canvas").isPrefixOf name)).filter
        (fun name => (str "canvas-2023").isPrefixOf name)
      = L.filter (fun name => (str "canvas-2023").isPrefixOf name) := by
  induction L with
  | nil => rfl
  | cons x L ih =>
    by_cases h23 : (str "canvas-2023").isPrefixOf x
    · have hc : (str "canvas").isPrefixOf x = true := by
        have h1 : (str "canvas") <+: (str "canvas-2023") := by decide
        have h2 : (str "canvas-2023") <+: x := List.isPrefixOf_iff_prefix.mp h23
        exact List.isPrefixOf_iff_prefix.mpr (h1.trans h2)
      simp [List.filter_cons, h23, hc, ih]
    · by_cases hc : (str "canvas").isPrefixOf x <;>
        simp [List.filter_cons, h23, hc, ih]

/-- Claim C9: for every member list, `getMITMembersOfList` returns all
USER-typed member identifiers in their original order, followed by the
kerbs derived from accepted KERBEROS-typed members in their original
order. -/
theorem C9_order_users_before_kerberos (listName : List Char)
    (members : List ListMember) :
    getMITMembersOfList listName (some (some members))
      = .ok (mitUserPart members ++ mitKerberosPart members) := rfl

/-- Claim C1, counterexample: the KERBEROS member
`xyz/root@ATHENA.MIT.EDU/junk` has no accepted institutional realm under
the claim's `kerb/root@REALM` / `kerb@REALM` forms (its realm would be
`ATHENA.MIT.EDU/junk`), yet `getMITMembersOfList` includes its kerb
`xyz`, because the code compares only the segment between the first and
second `/`. -/
theorem C1_realm_form_counterexample :
    getMITMembersOfList (str "l")
        (some (some [⟨str "l", str "xyz/root@ATHENA.MIT.EDU/junk", .KERBEROS⟩]))
      = .ok [str "xyz"]
    ∧ specKerberosAccepted (str "xyz/root@ATHENA.MIT.EDU/junk") = false :=
  ⟨rfl, by decide⟩

/-- Claim C1 (amended): `getMITMembersOfList` returns the USER-typed
member identifiers followed by the kerbs of those KERBEROS-typed members
accepted by the split rule `athenaAccept` (segment between the first and
second separator compared against the accepted strings); on the worked
example the result is `["abc", "xyz"]`. -/
theorem C1_getMITMembersOfList_amended :
    (∀ (listName : List Char) (members : List ListMember),
      getMITMembersOfList listName (some (some members))
        = .ok (mitUserPart members
            ++ ((members.filter (fun m => m.type == MemberType.KERBEROS)).map
                  (fun m => m.member)).filterMap athenaAccept))
    ∧ getMITMembersOfList (str "example-list") (some (some exampleMembers))
        = .ok [str "abc", str "xyz"] := by
  constructor
  · intro listName members
    have h : getMITMembersOfList listName (some (some members))
        = .ok (mitUserPart members
            ++ athenaLoop ((members.filter (fun m => m.type == MemberType.KERBEROS)).map
                (fun m => m.member))) := rfl
    rw [h, athenaLoop_eq_filterMap]
  · rfl

/-- Claim C2: the library method `getUserClasses` keeps exactly the user
lists beginning with `canvas` (in order), while the `!myclasses` handler
further restricts the reply to names beginning with `canvas-2023`; on
the worked example the two layers return
`["canvas-2023-6.004","canvas-archive"]` and `canvas-2023-6.004`. -/
theorem C2_getUserClasses_two_layers :
    (∀ (kerb : List Char) (lists : List (List Char)),
      getUserClasses kerb (some (some lists))
        = .ok (lists.filter (fun name => (str "canvas").isPrefixOf name)))
    ∧ getUserClasses (str "abc") (some (some exampleLists))
        = .ok [str "canvas-2023-6.004", str "canvas-archive"]
    ∧ (∀ lists : List (List Char),
      handleCommand (listsBot lists) evMyclasses
        = .ok (.replied (List.intercalate (str "\n")
            (lists.filter (fun name => (str "canvas-2023").isPrefixOf name)))))
    ∧ handleCommand (listsBot exampleLists) evMyclasses
        = .ok (.replied (str "canvas-2023-6.004")) := by
  refine ⟨fun kerb lists => rfl, rfl, fun lists => ?_, rfl⟩
  have h : handleCommand (listsBot lists) evMyclasses
      = .ok (.replied (List.intercalate (str "\n")
          ((lists.filter (fun name => (str "canvas").isPrefixOf name)).filter
            (fun name => (str "canvas-2023").isPrefixOf name)))) := rfl
  rw [h, filter_canvas_absorb]

/-- Claim C6: each adapter query raises the distinguished `NoAPIResult`
error on a null/absent top-level response payload, while an empty result
collection is a valid (empty) answer, not an error. -/
theorem C6_null_payload_vs_empty :
    (∀ (listName : List Char) (recursiveSearch : Bool),
      getMembersOfList listName recursiveSearch none
        = .error (.noAPIResult (str "getListMembership")))
    ∧ (∀ listName : List Char,
      getListAttributes listName none = .error (.noAPIResult (str "getListAttributes")))
    ∧ (∀ kerb : List Char,
      getUserAttributes kerb none = .error (.noAPIResult (str "getUserAttributes")))
    ∧ (∀ kerb : List Char,
      getUserLists kerb none = .error (.noAPIResult (str "getUserLists")))
    ∧ (∀ (listName : List Char) (recursiveSearch : Bool),
      getMembersOfList listName recursiveSearch (some (some [])) = .ok (some []))
    ∧ (∀ listName : List Char, getListAttributes listName (some (some [])) = .ok none)
    ∧ (∀ kerb : List Char, getUserAttributes kerb (some (some [])) = .ok none)
    ∧ (∀ kerb : List Char, getUserLists kerb (some (some [])) = .ok (some [])) :=
  ⟨fun _ _ => rfl, fun _ => rfl, fun _ => rfl, fun _ => rfl,
   fun _ _ => rfl, fun _ => rfl, fun _ => rfl, fun _ => rfl⟩

/-- Claim C10, counterexample: on a present payload that lacks the
wrapped return field, `getListAttributes` does not resolve to an
absent/undefined value — it throws a `TypeError` by indexing `[0]` into
`undefined`. -/
theorem C10_missing_return_counterexample :
    getListAttributes (str "sipb") (some none) = .error .typeError := rfl

/-- Claim C10 (amended): on a present payload lacking the wrapped return
field, `apiCall`, `getMembersOfList` and `getUserLists` resolve to the
undefined value; `getListAttributes` and `getUserAttributes` instead
throw a `TypeError` by indexing into it; the `NoAPIResult` error is
raised in neither case (only a null top-level payload triggers it). -/
theorem C10_missing_return_amended :
    (∀ method : List Char,
      apiCall (α := List (List Char)) method (some none) = .ok none)
    ∧ (∀ (listName : List Char) (recursiveSearch : Bool),
      getMembersOfList listName recursiveSearch (some none) = .ok none)
    ∧ (∀ kerb : List Char, getUserLists kerb (some none) = .ok none)
    ∧ (∀ listName : List Char,
      getListAttributes listName (some none) = .error .typeError)
    ∧ (∀ kerb : List Char,
      getUserAttributes kerb (some none) = .error .typeError) :=
  ⟨fun _ => rfl, fun _ _ => rfl, fun _ => rfl, fun _ => rfl, fun _ => rfl⟩

/-- Claim C3, counterexample: `x@a:b` lacks a leading `@`, yet
`extractLocalpart` succeeds with `a` — the pattern is unanchored, so an
interior `@` is enough. -/
theorem C3_extractLocalpart_counterexample :
    extractLocalpart (str "x@a:b") = some (str "a")
    ∧ (str "x@a:b").head? ≠ some '@' :=
  ⟨rfl, by decide⟩

/-- Claim C3 (amended): `extractLocalpart("@jdoe:matrix.example.org")`
returns `jdoe`, and every input containing no `@` at all, or containing
no `:`, makes it fail; an input whose `@` is merely not leading can
still succeed. -/
theorem C3_extractLocalpart_amended :
    extractLocalpart (str "@jdoe:matrix.example.org") = some (str "jdoe")
    ∧ (∀ s : List Char, '@' ∉ s → extractLocalpart s = none)
    ∧ (∀ s : List Char, ':' ∉ s → extractLocalpart s = none) :=
  ⟨rfl, extractLocalpart_of_no_at, extractLocalpart_of_no_colon⟩

/-- Witness for the amended C3 at concrete inputs. -/
theorem C3_extractLocalpart_amended_witness :
    extractLocalpart (str "jdoe.matrix.example.org") = none
    ∧ extractLocalpart (str "@jdoe") = none :=
  ⟨C3_extractLocalpart_amended.2.1 _ (by decide),
   C3_extractLocalpart_amended.2.2 _ (by decide)⟩

/-- Claim C8, counterexample: with an empty middle name but a first name
containing its own double space, `replace('  ', ' ')` collapses the
occurrence inside the first name, not the junction one, so the result is
not the first and last names joined by a single space. -/
theorem C8_getUserName_counterexample :
    getUserName (str "user") (some (some [attrsOdd])) = .ok (str "a b  c")
    ∧ str "a b  c" ≠ attrsOdd.first ++ str " " ++ attrsOdd.last :=
  ⟨rfl, by decide⟩

/-- Claim C8 (amended): when the middle name is empty and the first name
contains no double space of its own, `getUserName` returns the first and
last names joined by a single space. -/
theorem C8_getUserName_amended (kerb : List Char) (a : UserAttributes)
    (hmid : a.middle = []) (hfirst : hasDoubleSpace a.first = false) :
    getUserName kerb (some (some [a])) = .ok (a.first ++ str " " ++ a.last) := by
  have h : getUserName kerb (some (some [a]))
      = .ok (replaceFirst (str "  ") (str " ")
          (a.first ++ str " " ++ a.middle ++ str " " ++ a.last)) := rfl
  rw [h, hmid]
  have h2 : a.first ++ str " " ++ ([] : List Char) ++ str " " ++ a.last
      = a.first ++ ' ' :: ' ' :: a.last := by
    simp [str]
  rw [h2]
  have h3 : (str "  ") = [' ', ' '] := rfl
  have h4 : (str " ") = [' '] := rfl
  rw [h3, h4, replaceFirst_double_space a.first a.last hfirst]
  simp

/-- Witness for the amended C8 at a concrete attributes record. -/
theorem C8_getUserName_amended_witness :
    getUserName (str "jdoe") (some (some [attrsJohn]))
      = .ok (attrsJohn.first ++ str " " ++ attrsJohn.last) :=
  C8_getUserName_amended (str "jdoe") attrsJohn rfl rfl

/-- Claim C4, counterexample: an event whose `content.msgtype` is
`m.text` (not the claimed `text`) does produce a reply. -/
theorem C4_msgtype_counterexample :
    handleCommand sampleBot evHello = .ok (.replied (str "Hello world!"))
    ∧ evHello.content.bind EventContent.msgtype ≠ some (str "text") :=
  ⟨rfl, by decide⟩

/-- Claim C4 (amended): the moira bot's handler produces a reply only if
the event's `content.msgtype` equals `m.text` and the sender differs
from the bot's own identifier. -/
theorem C4_reply_guard_amended (bot : BotEnv) (ev : MatrixEvent)
    (r : List Char) (h : handleCommand bot ev = .ok (.replied r)) :
    ev.content.bind EventContent.msgtype = some (str "m.text")
    ∧ ev.sender ≠ some bot.selfId := by
  obtain ⟨sd, cont⟩ := ev
  cases cont with
  | none => exact absurd h (by simp [handleCommand])
  | some content =>
    by_cases hm : content.msgtype ≠ some (str "m.text")
    · exact absurd h (by simp [handleCommand, hm])
    · by_cases hs : sd = some bot.selfId
      · exact absurd h (by simp [handleCommand, hm, hs])
      · exact ⟨by simpa using not_not.mp hm, hs⟩

/-- Witness for the amended C4 at a concrete replying event. -/
theorem C4_reply_guard_amended_witness :
    evHello.content.bind EventContent.msgtype = some (str "m.text")
    ∧ evHello.sender ≠ some sampleBot.selfId :=
  C4_reply_guard_amended sampleBot evHello (str "Hello world!") rfl

/-- Claim C5, counterexample: a text event from another user whose body
starts with `!hello` but whose sender identifier `jdoe:bad` does not
parse as `@name:domain` makes the moira bot's handler throw before the
prefix test — no `Hello world!` reply is produced. -/
theorem C5_hello_counterexample :
    handleCommand sampleBot evBadSenderHello = .error .typeError
    ∧ evBadSenderHello.content.bind EventContent.msgtype = some (str "m.text")
    ∧ evBadSenderHello.sender ≠ some sampleBot.selfId
    ∧ evBadSenderHello.content.bind EventContent.body = some (str "!hello") :=
  ⟨rfl, rfl, by decide, rfl⟩

/-- Claim C5 (amended): a text event from another user whose body starts
with `!hello` is answered with the literal `Hello world!`, provided (in
the moira bot's handler) that the sender identifier parses via
`extractLocalpart`; the hello-world bot's handler replies without that
extra precondition. -/
theorem C5_hello_amended :
    (∀ (bot : BotEnv) (sd : Option (List Char)) (content : EventContent)
        (b u : List Char),
      content.msgtype = some (str "m.text") →
      sd ≠ some bot.selfId →
      extractLocalpartJS sd = .ok u →
      content.body = some b →
      (str "!hello").isPrefixOf b = true →
      handleCommand bot ⟨sd, some content⟩ = .ok (.replied (str "Hello world!")))
    ∧ (∀ (selfId : List Char) (sd : Option (List Char)) (content : EventContent)
        (b : List Char),
      content.msgtype = some (str "m.text") →
      sd ≠ some selfId →
      content.body = some b →
      (str "!hello").isPrefixOf b = true →
      handleCommandHello selfId ⟨sd, some content⟩
        = .ok (.replied (str "Hello world!"))) := by
  constructor
  · intro bot sd content b u hm hs hu hb hpre
    simp [handleCommand, hm, hs, hu, hb, hpre]
  · intro selfId sd content b hm hs hb hpre
    simp [handleCommandHello, hm, hs, hb, hpre]

/-- Witness for the amended C5 at concrete events for both handlers. -/
theorem C5_hello_amended_witness :
    handleCommand sampleBot evHello = .ok (.replied (str "Hello world!"))
    ∧ handleCommandHello (str "@uplink:matrix.mit.edu") evHello
        = .ok (.replied (str "Hello world!")) :=
  ⟨C5_hello_amended.1 sampleBot (some (str "@jdoe:matrix.mit.edu"))
      ⟨some (str "m.text"), some (str "!hello")⟩ (str "!hello") (str "jdoe")
      rfl (by decide) rfl rfl (by decide),
   C5_hello_amended.2 (str "@uplink:matrix.mit.edu")
      (some (str "@jdoe:matrix.mit.edu"))
      ⟨some (str "m.text"), some (str "!hello")⟩ (str "!hello")
      rfl (by decide) rfl (by decide)⟩

/-- Claim C7, counterexample: a text event from another user whose body
`hi` matches no recognized command still raises an error in the moira
bot's handler when the sender identifier does not parse — the localpart
is extracted before the prefix tests. -/
theorem C7_unmatched_counterexample :
    handleCommand sampleBot evBadSenderNoCmd = .error .typeError
    ∧ ((str "!hello").isPrefixOf (str "hi")
        || (str "!myclasses").isPrefixOf (str "hi")
        || (str "!myname").isPrefixOf (str "hi")) = false :=
  ⟨rfl, by decide⟩

/-- Claim C7 (amended): a text event from another user whose present
body matches none of `!hello`, `!myclasses`, `!myname` produces no
output and no error, provided the sender identifier parses via
`extractLocalpart`. -/
theorem C7_unmatched_amended (bot : BotEnv) (sd : Option (List Char))
    (content : EventContent) (b u : List Char)
    (hm : content.msgtype = some (str "m.text"))
    (hs : sd ≠ some bot.selfId)
    (hu : extractLocalpartJS sd = .ok u)
    (hb : content.body = some b)
    (h1 : (str "!hello").isPrefixOf b = false)
    (h2 : (str "!myclasses").isPrefixOf b = false)
    (h3 : (str "!myname").isPrefixOf b = false) :
    handleCommand bot ⟨sd, some content⟩ = .ok .silent := by
  simp [handleCommand, hm, hs, hu, hb, h1, h2, h3]

/-- Witness for the amended C7 at a concrete unmatched event. -/
theorem C7_unmatched_amended_witness :
    handleCommand sampleBot
        ⟨some (str "@jdoe:matrix.mit.edu"),
         some ⟨some (str "m.text"), some (str "hi")⟩⟩
      = .ok .silent :=
  C7_unmatched_amended sampleBot (some (str "@jdoe:matrix.mit.edu"))
    ⟨some (str "m.text"), some (str "hi")⟩ (str "hi") (str "jdoe")
    rfl (by decide) rfl rfl (by decide) (by decide) (by decide)
